import Mathlib

/-!
Shallow embedding of the request-admission and identity-trust layer of the
application: token issuing and validation (auth.service.ts, middleware/auth.ts),
the Redis-backed sliding-window rate limiter, IP reputation blocking
(rateLimiter middleware), and the audit sink (audit.service.ts).

Conventions of the embedding:
- Redis sorted sets are lists of Nat timestamps whose members are unique
  (a member of the real set is the string of the timestamp, so two requests
  in the same millisecond share one entry, exactly as zAdd behaves).
- The shared store being unreachable (a thrown store error) is modelled by
  the Boolean storeUp being false; the code's catch branch is the else branch.
- jwt.verify is modelled with its documented behaviour: signature first, then
  expiry, then audience and issuer, the latter two only when the verify
  options request them.  Every error jwt.verify produces is a
  JsonWebTokenError in the library (TokenExpiredError is a subclass of
  JsonWebTokenError), which the predicate isJsonWebTokenError reflects.
-/

/-! Data model -/

inductive UserRole
  | PARENT
  | CHILD
  | ADMIN
deriving DecidableEq, Repr

structure User where
  id : String
  email : String
  role : UserRole
deriving DecidableEq, Repr

/-- Payload and signature of a structurally well-formed JWT.  The secret
field records which secret the token was signed with: a signature check
against secret s succeeds exactly when the token was signed with s.
Access tokens carry no type claim (type = none); refresh tokens carry
type = some "refresh", as generateTokens produces them. -/
structure SignedToken where
  userId : String
  role : UserRole
  type : Option String
  secret : String
  iss : String
  aud : String
  exp : Nat
deriving DecidableEq, Repr

/-- A presented credential: either a string that does not parse as a JWT
or a structurally well-formed signed token. -/
inductive Credential
  | malformed
  | signed (t : SignedToken)
deriving DecidableEq, Repr

inductive VerifyError
  | malformedToken
  | invalidSignature
  | tokenExpired
  | invalidAudience
  | invalidIssuer
deriving DecidableEq, Repr

/-- In the jsonwebtoken library every verification failure is a
JsonWebTokenError; TokenExpiredError and NotBeforeError are subclasses of
JsonWebTokenError, and audience/issuer mismatches are plain
JsonWebTokenErrors. -/
def VerifyError.isJsonWebTokenError : VerifyError → Bool :=
  fun _ => true

def VerifyError.isTokenExpiredError : VerifyError → Bool
  | .tokenExpired => true
  | _ => false

structure VerifyOpts where
  issuer : Option String := none
  audience : Option String := none
deriving DecidableEq, Repr

def audOk (t : SignedToken) (opts : VerifyOpts) : Bool :=
  match opts.audience with
  | none => true
  | some a => t.aud == a

def issOk (t : SignedToken) (opts : VerifyOpts) : Bool :=
  match opts.issuer with
  | none => true
  | some i => t.iss == i

/-- Model of jwt.verify(token, secret, opts) evaluated at clock now:
signature, then expiry, then audience and issuer when the options ask for
them.  Fails on malformed input with a (plain) JsonWebTokenError. -/
def jwtVerify (cred : Credential) (secret : String) (opts : VerifyOpts) (now : Nat) :
    Except VerifyError SignedToken :=
  match cred with
  | .malformed => Except.error VerifyError.malformedToken
  | .signed t =>
    if t.secret ≠ secret then Except.error VerifyError.invalidSignature
    else if t.exp ≤ now then Except.error VerifyError.tokenExpired
    else if ¬ audOk t opts then Except.error VerifyError.invalidAudience
    else if ¬ issOk t opts then Except.error VerifyError.invalidIssuer
    else Except.ok t

/-- Environment of the token service: the two signing secrets
(JWT_SECRET and JWT_REFRESH_SECRET), the configured lifetimes, and the
user table (prisma.user.findUnique by id). -/
structure AuthEnv where
  accessSecret : String
  refreshSecret : String
  accessTtl : Nat
  refreshTtl : Nat
  users : String → Option User

structure TokenPair where
  accessToken : SignedToken
  refreshToken : SignedToken
deriving DecidableEq, Repr

/-- AuthService.generateTokens: the access token is jwt.sign of
(userId, role) under JWT_SECRET and the refresh token is jwt.sign of
(userId, role, type = refresh) under JWT_REFRESH_SECRET, both with
issuer storycanvas and audience storycanvas-api. -/
def generateTokens (env : AuthEnv) (userId : String) (role : UserRole) (now : Nat) :
    TokenPair :=
  { accessToken :=
      { userId := userId, role := role, type := none, secret := env.accessSecret,
        iss := "storycanvas", aud := "storycanvas-api", exp := now + env.accessTtl },
    refreshToken :=
      { userId := userId, role := role, type := some "refresh", secret := env.refreshSecret,
        iss := "storycanvas", aud := "storycanvas-api", exp := now + env.refreshTtl } }

inductive AuthOutcome
  | ok (principal : User)
  | err (msg : String) (status : Nat)
deriving DecidableEq, Repr

/-- The authenticate middleware (middleware/auth.ts).  The bearer argument
is none when the Authorization header is absent or lacks the Bearer prefix.
The call to jwt.verify passes no issuer or audience option.  The catch
block tests instanceof JsonWebTokenError before instanceof
TokenExpiredError; any other error reaches the generic error handler. -/
def authenticate (env : AuthEnv) (now : Nat) (bearer : Option Credential) : AuthOutcome :=
  match bearer with
  | none => AuthOutcome.err "No token provided" 401
  | some cred =>
    match jwtVerify cred env.accessSecret {} now with
    | Except.error e =>
      if e.isJsonWebTokenError then AuthOutcome.err "Invalid token" 401
      else if e.isTokenExpiredError then AuthOutcome.err "Token expired" 401
      else AuthOutcome.err "Internal Server Error" 500
    | Except.ok payload =>
      match env.users payload.userId with
      | none => AuthOutcome.err "User not found" 401
      | some user => AuthOutcome.ok user

/-- AuthService.refreshToken: verify under JWT_REFRESH_SECRET with issuer
and audience options, require type = refresh, require the user row to
exist, then issue a brand-new pair with generateTokens(user.id, user.role).
The surrounding catch converts every failure, including the inner
'Invalid token type' and 'User not found' throws, into the single
AppError('Invalid refresh token', 401). -/
def AuthService.refreshToken (env : AuthEnv) (now : Nat) (cred : Credential) :
    Except (String × Nat) TokenPair :=
  match jwtVerify cred env.refreshSecret
      { issuer := some "storycanvas", audience := some "storycanvas-api" } now with
  | Except.error _ => Except.error ("Invalid refresh token", 401)
  | Except.ok payload =>
    if payload.type ≠ some "refresh" then Except.error ("Invalid refresh token", 401)
    else
      match env.users payload.userId with
      | none => Except.error ("Invalid refresh token", 401)
      | some user => Except.ok (generateTokens env user.id user.role now)

def exceptOk {α β : Type} : Except α β → Bool
  | Except.ok _ => true
  | Except.error _ => false

/-! Audit sink (audit.service.ts) -/

structure AuditEvent where
  userId : Option String
  action : String
  resource : String
  ipAddress : Option String
deriving DecidableEq, Repr

/-- AuditService.logSecurity builds an event with resource security and the
caller-supplied action and source address. -/
def secEvent (action : String) (ip : String) : AuditEvent :=
  { userId := none, action := action, resource := "security", ipAddress := some ip }

inductive LogEntry
  | info (msg : String)
  | error (msg : String)
deriving DecidableEq, Repr

/-- prisma.auditLog.create: appends when the database is up, throws
otherwise. -/
def auditLogCreate (dbUp : Bool) (db : List AuditEvent) (e : AuditEvent) :
    Except String (List AuditEvent) :=
  if dbUp then Except.ok (db ++ [e]) else Except.error "database failure"

/-- AuditService.log: try prisma.auditLog.create; on success also emit an
info log line, on failure swallow the error and emit only an error log
line, leaving the audit table unchanged.  The return type is a plain pair:
the operation has no failure channel towards its caller. -/
def AuditService.log (dbUp : Bool) (db : List AuditEvent) (e : AuditEvent) :
    List AuditEvent × List LogEntry :=
  match auditLogCreate dbUp db e with
  | Except.ok db2 => (db2, [LogEntry.info "Audit log"])
  | Except.error _ => (db, [LogEntry.error "Failed to create audit log"])

/-! Sliding-window rate limiter (rateLimiter middleware) -/

structure RateLimitConfig where
  windowMs : Nat
  max : Nat
  skipSuccessfulRequests : Bool := false
  skipFailedRequests : Bool := false
deriving DecidableEq, Repr

/-- zRemRangeByScore key lo hi: remove every member whose score lies in
the closed interval from lo to hi. -/
def zRemRangeByScore (w : List Nat) (lo hi : Int) : List Nat :=
  w.filter (fun t => decide ((t : Int) < lo) || decide (hi < (t : Int)))

/-- zAdd with value equal to the string of the score: members of a sorted
set are unique, so adding an already-present timestamp leaves the set
unchanged. -/
def zAdd (w : List Nat) (v : Nat) : List Nat :=
  if v ∈ w then w else w ++ [v]

def zCard (w : List Nat) : Nat := w.length

def zRem (w : List Nat) (v : Nat) : List Nat := w.erase v

/-- Observable outcome of one pass of the advancedRateLimiter middleware on
the window stored at the request's key.  count, ttlSec and remaining are
none on the catch path, where the transaction never executed.  blockCalls
lists the identifiers the middleware passes to blockIP (it makes no such
call on any path).  faultLogged records the catch-branch error log. -/
structure RateLimitOutcome where
  allowed : Bool
  window : List Nat
  count : Option Nat
  ttlSec : Option Nat
  remaining : Option Nat
  events : List AuditEvent
  blockCalls : List String
  faultLogged : Bool
deriving DecidableEq, Repr

/-- advancedRateLimiter: one atomic MULTI of zRemRangeByScore(0, now -
windowMs), zAdd(now), zCard, expire(ceil(windowMs / 1000)); reject with a
RATE_LIMIT_EXCEEDED security event when count > max, else admit.  If the
store round-trip throws, log the fault and admit (fail open).  remaining
is Math.max(0, max - count), which is Nat subtraction. -/
def advancedRateLimiter (cfg : RateLimitConfig) (storeUp : Bool) (w : List Nat)
    (now : Nat) (ip : String) : RateLimitOutcome :=
  if storeUp then
    let w2 := zAdd (zRemRangeByScore w 0 ((now : Int) - (cfg.windowMs : Int))) now
    let count := zCard w2
    if cfg.max < count then
      { allowed := false, window := w2, count := some count,
        ttlSec := some ((cfg.windowMs + 999) / 1000), remaining := some (cfg.max - count),
        events := [secEvent "RATE_LIMIT_EXCEEDED" ip], blockCalls := [],
        faultLogged := false }
    else
      { allowed := true, window := w2, count := some count,
        ttlSec := some ((cfg.windowMs + 999) / 1000), remaining := some (cfg.max - count),
        events := [], blockCalls := [], faultLogged := false }
  else
    { allowed := true, window := w, count := none, ttlSec := none, remaining := none,
      events := [], blockCalls := [], faultLogged := true }

/-- The res.end override installed for admitted requests: when the response
status makes the request skippable under the configuration, zRem the entry
that this request added. -/
def responseEndHook (cfg : RateLimitConfig) (w : List Nat) (now statusCode : Nat) :
    List Nat :=
  if (cfg.skipSuccessfulRequests ∧ statusCode < 400) ∨
     (cfg.skipFailedRequests ∧ 400 ≤ statusCode) then
    zRem w now
  else w

/-- Configuration of authRateLimiter: 15 minutes, 5 attempts, counting only
failed requests. -/
def authRateLimiterConfig : RateLimitConfig :=
  { windowMs := 15 * 60 * 1000, max := 5, skipSuccessfulRequests := true }

def aiRateLimiterConfig : RateLimitConfig :=
  { windowMs := 60 * 1000, max := 10 }

def bookCreationRateLimiterConfig : RateLimitConfig :=
  { windowMs := 60 * 60 * 1000, max := 10 }

def apiRateLimiterConfig : RateLimitConfig :=
  { windowMs := 15 * 60 * 1000, max := 100 }

def strictRateLimiterConfig : RateLimitConfig :=
  { windowMs := 60 * 60 * 1000, max := 3 }

/-- Run the limiter on a sequence of request times against one key,
threading the stored window. -/
def runLimiter (cfg : RateLimitConfig) (ip : String) :
    List Nat → List Nat → List RateLimitOutcome
  | _, [] => []
  | w, t :: ts =>
    let out := advancedRateLimiter cfg true w t ip
    out :: runLimiter cfg ip out.window ts

/-- Final stored window after a sequence of requests. -/
def runWindow (cfg : RateLimitConfig) (ip : String) : List Nat → List Nat → List Nat
  | w, [] => w
  | w, t :: ts => runWindow cfg ip (advancedRateLimiter cfg true w t ip).window ts

/-! Reputation store (IP blocking) -/

/-- isIPBlocked: read the key blocked:ip:(ip) and compare with the string
one; any store error yields false.  The store argument is the keyspace
restricted to blocked:ip keys, indexed by the ip. -/
def isIPBlocked (storeUp : Bool) (store : String → Option String) (ip : String) : Bool :=
  if storeUp then
    match store ip with
    | some v => v == "1"
    | none => false
  else false

/-- blockIP: setEx the key for the duration and emit a BLOCKED_IP security
event; on a store error only an operational log line is produced. -/
def blockIP (storeUp : Bool) (store : String → Option String) (ip : String) :
    (String → Option String) × List AuditEvent :=
  if storeUp then
    (fun k => if k = ip then some "1" else store k, [secEvent "BLOCKED_IP" ip])
  else (store, [])

inductive MiddlewareResult
  | next (events : List AuditEvent)
  | rejected (events : List AuditEvent) (msg : String) (status : Nat)
deriving DecidableEq, Repr

/-- checkIPBlock middleware: when the ip is blocked, log one BLOCKED_IP
security event and reject with AppError('Access denied', 403); otherwise
pass through. -/
def checkIPBlock (storeUp : Bool) (store : String → Option String) (ip : String) :
    MiddlewareResult :=
  if isIPBlocked storeUp store ip then
    MiddlewareResult.rejected [secEvent "BLOCKED_IP" ip] "Access denied" 403
  else MiddlewareResult.next []

/-! Concrete demonstration data used by counterexamples and witnesses -/

def demoUser : User := { id := "u1", email := "u1@example.com", role := UserRole.PARENT }

def demoUsers : String → Option User := fun i => if i = "u1" then some demoUser else none

def demoEnv : AuthEnv :=
  { accessSecret := "access-secret", refreshSecret := "refresh-secret",
    accessTtl := 604800, refreshTtl := 2592000, users := demoUsers }

/-- A token signed with the access secret but carrying a foreign issuer and
audience. -/
def wrongIssuerToken : SignedToken :=
  { userId := "u1", role := UserRole.PARENT, type := none, secret := "access-secret",
    iss := "evil-issuer", aud := "evil-audience", exp := 1000 }

/-- A token signed with the access secret whose type claim says refresh. -/
def kindConfusedToken : SignedToken :=
  { userId := "u1", role := UserRole.PARENT, type := some "refresh",
    secret := "access-secret", iss := "storycanvas", aud := "storycanvas-api",
    exp := 1000 }

/-- A well-formed access token that has expired by clock 2000. -/
def expiredAccessToken : SignedToken :=
  { userId := "u1", role := UserRole.PARENT, type := none, secret := "access-secret",
    iss := "storycanvas", aud := "storycanvas-api", exp := 1000 }

/-- A valid access token whose subject is missing from the user table. -/
def ghostUserToken : SignedToken :=
  { userId := "ghost", role := UserRole.PARENT, type := none, secret := "access-secret",
    iss := "storycanvas", aud := "storycanvas-api", exp := 1000 }

/-- A refresh token of the demo environment that has expired by clock 5. -/
def expiredRefreshToken : SignedToken :=
  { userId := "u1", role := UserRole.PARENT, type := some "refresh",
    secret := "refresh-secret", iss := "storycanvas", aud := "storycanvas-api",
    exp := 3 }

def slidingDemoCfg : RateLimitConfig := { windowMs := 1000, max := 5 }

def autoBlockDemoCfg : RateLimitConfig := { windowMs := 1000, max := 1 }

/-! Claim theorems -/

/-- C1: advancedRateLimiter performs, in one atomic round-trip, the prune of
timestamps older than now - windowMs, the insertion of the current
timestamp, the live count, and the refresh of the key expiry to the window
length (in whole store seconds); a request is allowed exactly when the
post-insertion live count is at most max; with max = 5 and windowMs = 1000,
five admitted calls within the window are followed by a rejected sixth, and
a call after the window has elapsed is admitted again. -/
theorem slidingWindow_admission :
    (∀ (cfg : RateLimitConfig) (w : List Nat) (now : Nat) (ip : String),
      (advancedRateLimiter cfg true w now ip).window
          = zAdd (zRemRangeByScore w 0 ((now : Int) - (cfg.windowMs : Int))) now ∧
      (advancedRateLimiter cfg true w now ip).count
          = some (zCard (advancedRateLimiter cfg true w now ip).window) ∧
      (advancedRateLimiter cfg true w now ip).ttlSec
          = some ((cfg.windowMs + 999) / 1000) ∧
      ((advancedRateLimiter cfg true w now ip).allowed = true
          ↔ zCard (advancedRateLimiter cfg true w now ip).window ≤ cfg.max)) ∧
    (runLimiter slidingDemoCfg "203.0.113.9" [] [0, 100, 200, 300, 400, 500]).map
        RateLimitOutcome.allowed = [true, true, true, true, true, false] ∧
    (advancedRateLimiter slidingDemoCfg true
        (runWindow slidingDemoCfg "203.0.113.9" [] [0, 100, 200, 300, 400, 500]) 1600
        "203.0.113.9").allowed = true := by
  refine ⟨?_, by decide, by decide⟩
  intro cfg w now ip
  by_cases h : cfg.max <
      zCard (zAdd (zRemRangeByScore w 0 ((now : Int) - (cfg.windowMs : Int))) now)
  · simp only [advancedRateLimiter, if_pos trivial]
    rw [if_pos h]
    refine ⟨rfl, rfl, rfl, ?_⟩
    simp only [Bool.false_eq_true, false_iff]
    omega
  · simp only [advancedRateLimiter, if_pos trivial]
    rw [if_neg h]
    refine ⟨rfl, rfl, rfl, ?_⟩
    simp only [true_iff]
    omega

/-- C3: when the shared store is unreachable the limiter fails open: the
request is admitted, the fault is logged, no rejection event is produced
and the stored window is untouched; likewise isIPBlocked reports
not-blocked on a store error, so checkIPBlock passes the request through
rather than rejecting it. -/
theorem failOpen_on_store_fault :
    (∀ (cfg : RateLimitConfig) (w : List Nat) (now : Nat) (ip : String),
      (advancedRateLimiter cfg false w now ip).allowed = true ∧
      (advancedRateLimiter cfg false w now ip).faultLogged = true ∧
      (advancedRateLimiter cfg false w now ip).window = w ∧
      (advancedRateLimiter cfg false w now ip).events = []) ∧
    (∀ (store : String → Option String) (ip : String),
      isIPBlocked false store ip = false) ∧
    (∀ (store : String → Option String) (ip : String),
      checkIPBlock false store ip = MiddlewareResult.next []) := by
  refine ⟨?_, ?_, ?_⟩
  · intro cfg w now ip
    exact ⟨rfl, rfl, rfl, rfl⟩
  · intro store ip
    rfl
  · intro store ip
    rfl

/-- C4: the rate limiter, contrary to the repository documentation of
automatic blocking after repeated rate-limit violations, maintains no
violation counter and never calls the reputation-store block operation on
any path: even a run with four consecutive rejections for one identifier
produces no block call. -/
theorem rateLimiter_never_calls_block :
    (∀ (cfg : RateLimitConfig) (storeUp : Bool) (w : List Nat) (now : Nat) (ip : String),
      (advancedRateLimiter cfg storeUp w now ip).blockCalls = []) ∧
    (runLimiter autoBlockDemoCfg "198.51.100.7" [] [0, 10, 20, 30, 40]).map
        RateLimitOutcome.allowed = [true, false, false, false, false] ∧
    ((runLimiter autoBlockDemoCfg "198.51.100.7" [] [0, 10, 20, 30, 40]).map
        RateLimitOutcome.blockCalls).flatten = [] := by
  refine ⟨?_, by decide, by decide⟩
  intro cfg storeUp w now ip
  cases storeUp
  · rfl
  · by_cases h : cfg.max <
        zCard (zAdd (zRemRangeByScore w 0 ((now : Int) - (cfg.windowMs : Int))) now)
    · simp only [advancedRateLimiter, if_pos trivial]
      rw [if_pos h]
    · simp only [advancedRateLimiter, if_pos trivial]
      rw [if_neg h]

/-- C7: a rate-limit rejection produces exactly one RATE_LIMIT_EXCEEDED
security event carrying the request's source address, recorded before the
rejection response, and an admitted request produces none; a
blocked-identifier rejection by checkIPBlock carries exactly one BLOCKED_IP
security event with the matching address and the 403 response, and a
pass-through produces no event. -/
theorem audit_per_rejection :
    (∀ (cfg : RateLimitConfig) (w : List Nat) (now : Nat) (ip : String),
      ((advancedRateLimiter cfg true w now ip).allowed = false →
        (advancedRateLimiter cfg true w now ip).events
          = [secEvent "RATE_LIMIT_EXCEEDED" ip]) ∧
      ((advancedRateLimiter cfg true w now ip).allowed = true →
        (advancedRateLimiter cfg true w now ip).events = [])) ∧
    (∀ (storeUp : Bool) (store : String → Option String) (ip : String)
        (evs : List AuditEvent) (msg : String) (status : Nat),
      checkIPBlock storeUp store ip = MiddlewareResult.rejected evs msg status →
        evs = [secEvent "BLOCKED_IP" ip] ∧ msg = "Access denied" ∧ status = 403) ∧
    (∀ (storeUp : Bool) (store : String → Option String) (ip : String)
        (evs : List AuditEvent),
      checkIPBlock storeUp store ip = MiddlewareResult.next evs → evs = []) := by
  refine ⟨?_, ?_, ?_⟩
  · intro cfg w now ip
    by_cases h : cfg.max <
        zCard (zAdd (zRemRangeByScore w 0 ((now : Int) - (cfg.windowMs : Int))) now)
    · constructor
      · intro _
        simp only [advancedRateLimiter, if_pos trivial]
        rw [if_pos h]
      · intro hcontra
        simp only [advancedRateLimiter, if_pos trivial] at hcontra
        rw [if_pos h] at hcontra
        exact absurd hcontra (by simp)
    · constructor
      · intro hcontra
        simp only [advancedRateLimiter, if_pos trivial] at hcontra
        rw [if_neg h] at hcontra
        exact absurd hcontra (by simp)
      · intro _
        simp only [advancedRateLimiter, if_pos trivial]
        rw [if_neg h]
  · intro storeUp store ip evs msg status hres
    unfold checkIPBlock at hres
    by_cases hb : isIPBlocked storeUp store ip = true
    · rw [if_pos hb] at hres
      cases hres
      exact ⟨rfl, rfl, rfl⟩
    · rw [if_neg hb] at hres
      cases hres
  · intro storeUp store ip evs hres
    unfold checkIPBlock at hres
    by_cases hb : isIPBlocked storeUp store ip = true
    · rw [if_pos hb] at hres
      cases hres
    · rw [if_neg hb] at hres
      cases hres
      rfl

/-- C8: AuditService.log never raises to its caller: it is a total function
into a plain pair; when the underlying persistence step succeeds the event
is appended and an info line is logged, and when it fails the failure is
swallowed, the audit table is left unchanged and only an operational error
line is emitted. -/
theorem auditLog_never_raises :
    ∀ (dbUp : Bool) (db : List AuditEvent) (e : AuditEvent),
      (exceptOk (auditLogCreate dbUp db e) = true ∧
        AuditService.log dbUp db e = (db ++ [e], [LogEntry.info "Audit log"])) ∨
      (exceptOk (auditLogCreate dbUp db e) = false ∧
        AuditService.log dbUp db e = (db, [LogEntry.error "Failed to create audit log"])) := by
  intro dbUp db e
  cases dbUp
  · right
    exact ⟨rfl, rfl⟩
  · left
    exact ⟨rfl, rfl⟩

/-- Helper: jwt.verify succeeds with payload t exactly when the credential
is the well-formed token t, signed with the requested secret, unexpired,
and passing whatever audience and issuer checks the options request. -/
theorem jwtVerify_ok_iff (cred : Credential) (secret : String) (opts : VerifyOpts)
    (now : Nat) (t : SignedToken) :
    jwtVerify cred secret opts now = Except.ok t ↔
      cred = Credential.signed t ∧ t.secret = secret ∧ now < t.exp ∧
      audOk t opts = true ∧ issOk t opts = true := by
  cases cred with
  | malformed => simp [jwtVerify]
  | signed s =>
    simp only [jwtVerify]
    constructor
    · intro h
      split at h
      · exact Except.noConfusion h
      · split at h
        · exact Except.noConfusion h
        · split at h
          · exact Except.noConfusion h
          · split at h
            · exact Except.noConfusion h
            · injection h with h5
              subst h5
              rename_i hsec hexp haud hiss
              exact ⟨rfl, not_not.mp hsec, by omega, not_not.mp haud, not_not.mp hiss⟩
    · rintro ⟨heq, hsec, hexp, haud, hiss⟩
      injection heq with heq2
      subst heq2
      rw [if_neg (by simp [hsec]), if_neg (by omega), if_neg (by simp [haud]),
        if_neg (by simp [hiss])]

/-- Helper: any jwt.verify failure in the authenticate middleware is
reported as the invalid-token error, because every verification error
satisfies the instanceof JsonWebTokenError test that the catch block
performs first. -/
theorem authenticate_error_invalidToken (env : AuthEnv) (now : Nat) (cred : Credential)
    (e : VerifyError) (he : jwtVerify cred env.accessSecret {} now = Except.error e) :
    authenticate env now (some cred) = AuthOutcome.err "Invalid token" 401 := by
  simp [authenticate, he, VerifyError.isJsonWebTokenError]

/-- Helper: the authenticate middleware resolves a principal exactly when
the presented credential is a well-formed token signed with the access
secret, unexpired, and whose subject is present in the user table; the
resolved principal is that user row.  No issuer, audience or kind
condition appears. -/
theorem authenticate_ok_iff (env : AuthEnv) (now : Nat) (cred : Credential) (u : User) :
    authenticate env now (some cred) = AuthOutcome.ok u ↔
      ∃ t : SignedToken, cred = Credential.signed t ∧ t.secret = env.accessSecret ∧
        now < t.exp ∧ env.users t.userId = some u := by
  constructor
  · intro h
    cases hv : jwtVerify cred env.accessSecret {} now with
    | error e =>
      rw [authenticate_error_invalidToken env now cred e hv] at h
      exact AuthOutcome.noConfusion h
    | ok t =>
      have h2 : (match env.users t.userId with
          | none => AuthOutcome.err "User not found" 401
          | some user => AuthOutcome.ok user) = AuthOutcome.ok u := by
        rw [← h]
        simp [authenticate, hv]
      cases hu : env.users t.userId with
      | none =>
        rw [hu] at h2
        exact AuthOutcome.noConfusion h2
      | some v =>
        rw [hu] at h2
        injection h2 with h3
        subst h3
        obtain ⟨hcred, hsec, hexp, _, _⟩ :=
          (jwtVerify_ok_iff cred env.accessSecret {} now t).1 hv
        exact ⟨t, hcred, hsec, hexp, hu⟩
  · rintro ⟨t, rfl, hsec, hexp, hu⟩
    have hv : jwtVerify (Credential.signed t) env.accessSecret {} now = Except.ok t :=
      (jwtVerify_ok_iff (Credential.signed t) env.accessSecret {} now t).2
        ⟨rfl, hsec, hexp, rfl, rfl⟩
    simp [authenticate, hv, hu]

/-- C2 counterexample: the authenticate middleware accepts a valid-signature,
unexpired token whose issuer and audience are foreign (so issuer and
audience are not verified), accepts a token whose kind claim says refresh
when it is signed with the access secret (so no kind-claim check exists),
answers the invalid-token error rather than the expired-token error on an
expired access token, and answers the invalid-token error rather than a
wrong-kind error when a genuine refresh token is presented. -/
theorem validateAccess_claim_cex :
    (wrongIssuerToken.iss ≠ "storycanvas" ∧ wrongIssuerToken.aud ≠ "storycanvas-api" ∧
      authenticate demoEnv 5 (some (Credential.signed wrongIssuerToken))
        = AuthOutcome.ok demoUser) ∧
    (kindConfusedToken.type = some "refresh" ∧
      authenticate demoEnv 5 (some (Credential.signed kindConfusedToken))
        = AuthOutcome.ok demoUser) ∧
    (expiredAccessToken.exp ≤ 2000 ∧
      authenticate demoEnv 2000 (some (Credential.signed expiredAccessToken))
        = AuthOutcome.err "Invalid token" 401) ∧
    authenticate demoEnv 5
        (some (Credential.signed (generateTokens demoEnv "u1" UserRole.PARENT 0).refreshToken))
      = AuthOutcome.err "Invalid token" 401 := by
  exact ⟨⟨by decide, by decide, by decide⟩, ⟨by decide, by decide⟩,
    ⟨by decide, by decide⟩, by decide⟩

/-- C2 (amended): the authenticate middleware verifies only the signature
under the access secret and the expiry; every verification failure,
including an expired token and a presented refresh token, yields the
invalid-token error with status 401 (the expired-token branch is
unreachable because in the jsonwebtoken library TokenExpiredError is a
subclass of JsonWebTokenError); success happens exactly on a well-formed,
unexpired token signed with the access secret whose subject exists, with
no issuer, audience or kind-claim condition. -/
theorem validateAccess_actual (env : AuthEnv) (now : Nat) (cred : Credential) :
    (∀ e : VerifyError, jwtVerify cred env.accessSecret {} now = Except.error e →
      authenticate env now (some cred) = AuthOutcome.err "Invalid token" 401) ∧
    (∀ u : User, authenticate env now (some cred) = AuthOutcome.ok u ↔
      ∃ t : SignedToken, cred = Credential.signed t ∧ t.secret = env.accessSecret ∧
        now < t.exp ∧ env.users t.userId = some u) ∧
    (env.accessSecret ≠ env.refreshSecret →
      ∀ (userId : String) (role : UserRole) (issuedAt : Nat),
        authenticate env now
            (some (Credential.signed (generateTokens env userId role issuedAt).refreshToken))
          = AuthOutcome.err "Invalid token" 401) := by
  refine ⟨?_, ?_, ?_⟩
  · intro e he
    exact authenticate_error_invalidToken env now cred e he
  · intro u
    exact authenticate_ok_iff env now cred u
  · intro hsec userId role issuedAt
    have hne : (generateTokens env userId role issuedAt).refreshToken.secret
        ≠ env.accessSecret := fun h => hsec h.symm
    refine authenticate_error_invalidToken env now _ VerifyError.invalidSignature ?_
    simp only [jwtVerify]
    rw [if_pos hne]

/-- C2 witness: the amended theorem applied to a malformed credential, to a
genuine refresh token of an issued pair, and to a valid unexpired access
token of an existing user. -/
theorem validateAccess_actual_witness :
    authenticate demoEnv 0 (some Credential.malformed)
      = AuthOutcome.err "Invalid token" 401 ∧
    authenticate demoEnv 5
        (some (Credential.signed (generateTokens demoEnv "u1" UserRole.PARENT 0).refreshToken))
      = AuthOutcome.err "Invalid token" 401 ∧
    authenticate demoEnv 5 (some (Credential.signed expiredAccessToken))
      = AuthOutcome.ok demoUser :=
  ⟨(validateAccess_actual demoEnv 0 Credential.malformed).1
      VerifyError.malformedToken rfl,
   (validateAccess_actual demoEnv 5
       (Credential.signed (generateTokens demoEnv "u1" UserRole.PARENT 0).refreshToken)).2.2
     (by decide) "u1" UserRole.PARENT 0,
   ((validateAccess_actual demoEnv 5 (Credential.signed expiredAccessToken)).2.1 demoUser).mpr
     ⟨expiredAccessToken, rfl, rfl, by decide, by decide⟩⟩

/-- C10: a syntactically valid, unexpired access token signed with the
access secret whose subject has been deleted from the user table is
rejected with 'User not found' and status 401; in general the middleware
attaches a principal only when the token's subject still exists in the
user table. -/
theorem authenticate_requires_live_user (env : AuthEnv) (now : Nat) (t : SignedToken)
    (hsig : t.secret = env.accessSecret) (hexp : now < t.exp)
    (hmissing : env.users t.userId = none) :
    authenticate env now (some (Credential.signed t))
      = AuthOutcome.err "User not found" 401 ∧
    (∀ (cred : Credential) (u : User),
      authenticate env now (some cred) = AuthOutcome.ok u →
        ∃ s : SignedToken, cred = Credential.signed s ∧ env.users s.userId = some u) := by
  constructor
  · have hv : jwtVerify (Credential.signed t) env.accessSecret {} now = Except.ok t :=
      (jwtVerify_ok_iff (Credential.signed t) env.accessSecret {} now t).2
        ⟨rfl, hsig, hexp, rfl, rfl⟩
    simp [authenticate, hv, hmissing]
  · intro cred u hok
    obtain ⟨s, hcred, _, _, hu⟩ := (authenticate_ok_iff env now cred u).1 hok
    exact ⟨s, hcred, hu⟩

/-- C10 witness: the theorem applied to a valid token whose subject is
absent from the demo user table. -/
theorem authenticate_requires_live_user_witness :
    authenticate demoEnv 5 (some (Credential.signed ghostUserToken))
      = AuthOutcome.err "User not found" 401 :=
  (authenticate_requires_live_user demoEnv 5 ghostUserToken rfl (by decide) (by decide)).1

/-- Helper: on the happy path the stored window after one limiter pass is
always the pruned window with the current timestamp added, whether the
request was admitted or rejected. -/
theorem advancedRateLimiter_window (cfg : RateLimitConfig) (w : List Nat) (now : Nat)
    (ip : String) :
    (advancedRateLimiter cfg true w now ip).window
      = zAdd (zRemRangeByScore w 0 ((now : Int) - (cfg.windowMs : Int))) now := by
  by_cases h : cfg.max <
      zCard (zAdd (zRemRangeByScore w 0 ((now : Int) - (cfg.windowMs : Int))) now)
  · simp only [advancedRateLimiter, if_pos trivial]
    rw [if_pos h]
  · simp only [advancedRateLimiter, if_pos trivial]
    rw [if_neg h]

/-- Helper: rotation succeeds with a given pair exactly when the presented
credential is a well-formed refresh token under the refresh secret with the
expected issuer and audience, unexpired, carrying the refresh kind claim,
whose subject exists; and the issued pair is a brand-new one minted at the
rotation time from the stored user row. -/
theorem refreshToken_ok_iff (env : AuthEnv) (now : Nat) (cred : Credential)
    (pair : TokenPair) :
    AuthService.refreshToken env now cred = Except.ok pair ↔
      ∃ (t : SignedToken) (u : User),
        cred = Credential.signed t ∧ t.secret = env.refreshSecret ∧ now < t.exp ∧
        t.iss = "storycanvas" ∧ t.aud = "storycanvas-api" ∧ t.type = some "refresh" ∧
        env.users t.userId = some u ∧ pair = generateTokens env u.id u.role now := by
  constructor
  · intro h
    cases hv : jwtVerify cred env.refreshSecret
        { issuer := some "storycanvas", audience := some "storycanvas-api" } now with
    | error e =>
      simp [AuthService.refreshToken, hv] at h
    | ok t =>
      obtain ⟨hcred, hsec, hexp, haud, hiss⟩ :=
        (jwtVerify_ok_iff cred env.refreshSecret _ now t).1 hv
      by_cases hty : t.type = some "refresh"
      · cases hu : env.users t.userId with
        | none =>
          simp [AuthService.refreshToken, hv, hty, hu] at h
        | some u =>
          simp only [AuthService.refreshToken, hv] at h
          rw [if_neg (by simp [hty]), hu] at h
          injection h with h2
          refine ⟨t, u, hcred, hsec, hexp, ?_, ?_, hty, hu, h2.symm⟩
          · simpa [issOk] using hiss
          · simpa [audOk] using haud
      · simp [AuthService.refreshToken, hv, hty] at h
  · rintro ⟨t, u, rfl, hsec, hexp, hiss2, haud2, hty, hu, rfl⟩
    have hv : jwtVerify (Credential.signed t) env.refreshSecret
        { issuer := some "storycanvas", audience := some "storycanvas-api" } now
          = Except.ok t :=
      (jwtVerify_ok_iff (Credential.signed t) env.refreshSecret _ now t).2
        ⟨rfl, hsec, hexp, by simp [audOk, haud2], by simp [issOk, hiss2]⟩
    simp [AuthService.refreshToken, hv, hty, hu]

/-- C6: rotation verifies the refresh credential's signature under the
refresh secret, its issuer, audience, expiry and its refresh kind claim,
confirms the subject still exists in the user table (the data model has no
deactivation state, so an existing subject is never deactivated), and only
then issues a brand-new pair minted at rotation time; an expired or a
malformed refresh credential always fails with the invalid-token error
('Invalid refresh token', 401) and never yields a pair. -/
theorem refreshRotation_correct (env : AuthEnv) (now : Nat) :
    (∀ (t : SignedToken) (u : User),
      t.secret = env.refreshSecret → now < t.exp → t.iss = "storycanvas" →
      t.aud = "storycanvas-api" → t.type = some "refresh" →
      env.users t.userId = some u →
      AuthService.refreshToken env now (Credential.signed t)
        = Except.ok (generateTokens env u.id u.role now)) ∧
    (∀ (cred : Credential) (pair : TokenPair),
      AuthService.refreshToken env now cred = Except.ok pair →
        ∃ (t : SignedToken) (u : User),
          cred = Credential.signed t ∧ t.secret = env.refreshSecret ∧ now < t.exp ∧
          t.iss = "storycanvas" ∧ t.aud = "storycanvas-api" ∧ t.type = some "refresh" ∧
          env.users t.userId = some u ∧ pair = generateTokens env u.id u.role now) ∧
    (∀ t : SignedToken, t.exp ≤ now →
      AuthService.refreshToken env now (Credential.signed t)
        = Except.error ("Invalid refresh token", 401)) ∧
    AuthService.refreshToken env now Credential.malformed
      = Except.error ("Invalid refresh token", 401) := by
  refine ⟨?_, ?_, ?_, rfl⟩
  · intro t u hsec hexp hiss2 haud2 hty hu
    exact (refreshToken_ok_iff env now (Credential.signed t)
      (generateTokens env u.id u.role now)).2 ⟨t, u, rfl, hsec, hexp, hiss2, haud2, hty, hu, rfl⟩
  · intro cred pair h
    exact (refreshToken_ok_iff env now cred pair).1 h
  · intro t hexp2
    cases hv : jwtVerify (Credential.signed t) env.refreshSecret
        { issuer := some "storycanvas", audience := some "storycanvas-api" } now with
    | error e => simp [AuthService.refreshToken, hv]
    | ok s =>
      obtain ⟨heq, _, hexp3, _, _⟩ :=
        (jwtVerify_ok_iff (Credential.signed t) env.refreshSecret _ now s).1 hv
      injection heq with heq2
      subst heq2
      omega

/-- C6 witness: the theorem applied to a freshly issued refresh token of the
demo environment and to an expired refresh token. -/
theorem refreshRotation_correct_witness :
    AuthService.refreshToken demoEnv 5
        (Credential.signed (generateTokens demoEnv "u1" UserRole.PARENT 0).refreshToken)
      = Except.ok (generateTokens demoEnv "u1" UserRole.PARENT 5) ∧
    AuthService.refreshToken demoEnv 5 (Credential.signed expiredRefreshToken)
      = Except.error ("Invalid refresh token", 401) :=
  ⟨(refreshRotation_correct demoEnv 5).1
      (generateTokens demoEnv "u1" UserRole.PARENT 0).refreshToken demoUser
      rfl (by decide) rfl rfl rfl (by decide),
   (refreshRotation_correct demoEnv 5).2.2.1 expiredRefreshToken (by decide)⟩

/-- C5: for every issued credential pair, with the two signing secrets
configured distinct as the deployment documentation requires, the pair's
access token never passes refresh rotation (it fails with the
invalid-refresh-token error) and the pair's refresh token never validates
as an access credential (it fails with the invalid-token error): the
credentials are signed with distinct secrets and the refresh credential
carries the explicit refresh kind claim. -/
theorem credentialKind_separation (env : AuthEnv) (userId : String) (role : UserRole)
    (issuedAt now : Nat) (hsec : env.accessSecret ≠ env.refreshSecret) :
    (∀ pair : TokenPair,
      AuthService.refreshToken env now
          (Credential.signed (generateTokens env userId role issuedAt).accessToken)
        ≠ Except.ok pair) ∧
    AuthService.refreshToken env now
        (Credential.signed (generateTokens env userId role issuedAt).accessToken)
      = Except.error ("Invalid refresh token", 401) ∧
    (∀ u : User,
      authenticate env now
          (some (Credential.signed (generateTokens env userId role issuedAt).refreshToken))
        ≠ AuthOutcome.ok u) ∧
    authenticate env now
        (some (Credential.signed (generateTokens env userId role issuedAt).refreshToken))
      = AuthOutcome.err "Invalid token" 401 := by
  have hrefresh : AuthService.refreshToken env now
      (Credential.signed (generateTokens env userId role issuedAt).accessToken)
        = Except.error ("Invalid refresh token", 401) := by
    have hv : jwtVerify
        (Credential.signed (generateTokens env userId role issuedAt).accessToken)
        env.refreshSecret
        { issuer := some "storycanvas", audience := some "storycanvas-api" } now
          = Except.error VerifyError.invalidSignature := by
      simp only [jwtVerify]
      rw [if_pos (show (generateTokens env userId role issuedAt).accessToken.secret
        ≠ env.refreshSecret from hsec)]
    simp [AuthService.refreshToken, hv]
  have haccess : authenticate env now
      (some (Credential.signed (generateTokens env userId role issuedAt).refreshToken))
        = AuthOutcome.err "Invalid token" 401 := by
    refine authenticate_error_invalidToken env now _ VerifyError.invalidSignature ?_
    simp only [jwtVerify]
    rw [if_pos (show (generateTokens env userId role issuedAt).refreshToken.secret
      ≠ env.accessSecret from fun h => hsec h.symm)]
  refine ⟨?_, hrefresh, ?_, haccess⟩
  · intro pair hcontra
    rw [hrefresh] at hcontra
    exact Except.noConfusion hcontra
  · intro u hcontra
    rw [haccess] at hcontra
    exact AuthOutcome.noConfusion hcontra

/-- C5 witness: the theorem applied to the pair issued for the demo user
under the demo environment, whose two secrets are distinct. -/
theorem credentialKind_separation_witness :
    AuthService.refreshToken demoEnv 5
        (Credential.signed (generateTokens demoEnv "u1" UserRole.PARENT 0).accessToken)
      = Except.error ("Invalid refresh token", 401) ∧
    authenticate demoEnv 5
        (some (Credential.signed (generateTokens demoEnv "u1" UserRole.PARENT 0).refreshToken))
      ≠ AuthOutcome.ok demoUser :=
  ⟨(credentialKind_separation demoEnv "u1" UserRole.PARENT 0 5 (by decide)).2.1,
   (credentialKind_separation demoEnv "u1" UserRole.PARENT 0 5 (by decide)).2.2.1 demoUser⟩

/-- C9: the auth limiter is configured with skip-successful-requests
semantics; for a request whose timestamp was not already in the pruned
window, a response completing with a status below 400 retracts the entry
the limiter added, leaving exactly the pruned window, while a response
with status 400 or above leaves the entry in place — so only failed
attempts count toward the auth limiter's quota. -/
theorem authLimiter_retracts_successful (w : List Nat) (now status : Nat) (ip : String)
    (hstatus : status < 400)
    (hfresh : now ∉ zRemRangeByScore w 0
      ((now : Int) - (authRateLimiterConfig.windowMs : Int))) :
    authRateLimiterConfig.skipSuccessfulRequests = true ∧
    responseEndHook authRateLimiterConfig
        (advancedRateLimiter authRateLimiterConfig true w now ip).window now status
      = zRemRangeByScore w 0 ((now : Int) - (authRateLimiterConfig.windowMs : Int)) ∧
    (∀ status2 : Nat, 400 ≤ status2 →
      responseEndHook authRateLimiterConfig
          (advancedRateLimiter authRateLimiterConfig true w now ip).window now status2
        = (advancedRateLimiter authRateLimiterConfig true w now ip).window) := by
  refine ⟨rfl, ?_, ?_⟩
  · rw [advancedRateLimiter_window]
    unfold responseEndHook
    rw [if_pos (Or.inl ⟨rfl, hstatus⟩)]
    have h1 : zAdd (zRemRangeByScore w 0
        ((now : Int) - (authRateLimiterConfig.windowMs : Int))) now
          = zRemRangeByScore w 0
            ((now : Int) - (authRateLimiterConfig.windowMs : Int)) ++ [now] := by
      unfold zAdd
      rw [if_neg hfresh]
    rw [h1]
    unfold zRem
    rw [List.erase_append_right _ hfresh]
    simp
  · intro status2 h2
    unfold responseEndHook
    rw [if_neg (by
      rintro (⟨_, h3⟩ | ⟨h4, _⟩)
      · omega
      · simp [authRateLimiterConfig] at h4)]

/-- C9 witness: the theorem applied to an empty stored window, a request at
time zero, a successful (200) and a failed (401) response status. -/
theorem authLimiter_retracts_successful_witness :
    responseEndHook authRateLimiterConfig
        (advancedRateLimiter authRateLimiterConfig true [] 0 "203.0.113.5").window 0 200
      = zRemRangeByScore [] 0 ((0 : Int) - (authRateLimiterConfig.windowMs : Int)) ∧
    responseEndHook authRateLimiterConfig
        (advancedRateLimiter authRateLimiterConfig true [] 0 "203.0.113.5").window 0 401
      = (advancedRateLimiter authRateLimiterConfig true [] 0 "203.0.113.5").window :=
  ⟨(authLimiter_retracts_successful [] 0 200 "203.0.113.5" (by decide) (by decide)).2.1,
   (authLimiter_retracts_successful [] 0 200 "203.0.113.5" (by decide) (by decide)).2.2
     401 (by decide)⟩

/-- C7 witness: the theorem applied to a rejecting limiter pass, an
admitted limiter pass, a blocked identifier and an unblocked identifier. -/
theorem audit_per_rejection_witness :
    (advancedRateLimiter autoBlockDemoCfg true [0] 10 "198.51.100.7").events
      = [secEvent "RATE_LIMIT_EXCEEDED" "198.51.100.7"] ∧
    (advancedRateLimiter autoBlockDemoCfg true [] 0 "198.51.100.7").events = [] ∧
    ([secEvent "BLOCKED_IP" "9.9.9.9"] = [secEvent "BLOCKED_IP" "9.9.9.9"] ∧
      "Access denied" = "Access denied" ∧ (403 : Nat) = 403) ∧
    ([] : List AuditEvent) = [] :=
  ⟨(audit_per_rejection.1 autoBlockDemoCfg [0] 10 "198.51.100.7").1 (by decide),
   (audit_per_rejection.1 autoBlockDemoCfg [] 0 "198.51.100.7").2 (by decide),
   audit_per_rejection.2.1 true
     (fun k => if k = "9.9.9.9" then some "1" else none) "9.9.9.9"
     [secEvent "BLOCKED_IP" "9.9.9.9"] "Access denied" 403 (by decide),
   audit_per_rejection.2.2 true (fun _ => none) "198.51.100.8" [] (by decide)⟩
